import Mathlib

/-!
Verification of the promotion-catalog service (Telegram web-app bot).

The development shallowly embeds the data layer (`app/db.py`) and the
dialogue / HTTP handlers (`main.py`) of the repository. The SQLite store is
modelled as explicit lists of rows; every connection in the source executes
`PRAGMA foreign_keys = ON;` before its statements, so foreign-key
enforcement on `promotion_clicks.promotion_id REFERENCES promotions(id)`
is part of the model. Timestamps (`_utcnow()` ISO-8601 strings, whose
lexicographic order agrees with time order) are modelled as naturals.
-/

namespace PromoApp

/-- A row of the `promotions` table (`db.py`, `init_db`):
id INTEGER PRIMARY KEY AUTOINCREMENT, title/description/link TEXT NOT NULL,
preview_image_file_id TEXT, image_file_id TEXT, created_at TEXT NOT NULL. -/
structure Promotion where
  id : Nat
  title : String
  description : String
  link : String
  preview_image_file_id : Option String
  image_file_id : Option String
  created_at : Nat
deriving DecidableEq, Repr

/-- A row of the `promotion_clicks` table (`db.py`, `init_db`):
promotion_id INTEGER NOT NULL REFERENCES promotions(id) ON DELETE CASCADE,
user_id INTEGER (nullable), action TEXT NOT NULL, clicked_at TEXT NOT NULL. -/
structure ClickEvent where
  id : Nat
  promotion_id : Nat
  user_id : Option Int
  action : String
  clicked_at : Nat
deriving DecidableEq, Repr

/-- A row of the `users` table (`db.py`, `init_db`). -/
structure UserRow where
  id : Nat
  tg_id : Int
  created_at : Nat
  claimed : Bool
deriving DecidableEq, Repr

/-- The SQLite database state: the three tables plus the AUTOINCREMENT
counters that assign fresh primary keys. -/
structure Store where
  promotions : List Promotion
  clicks : List ClickEvent
  users : List UserRow
  next_promo_id : Nat
  next_click_id : Nat
deriving DecidableEq, Repr

/-- A freshly initialised database (`init_db` on a new file): all tables
empty, AUTOINCREMENT counters at 1. -/
def emptyStore : Store :=
  { promotions := [], clicks := [], users := [], next_promo_id := 1, next_click_id := 1 }

/-- Errors the data layer can raise. `invalidField` is the
ValueError raised by `update_promotion_field` on a bad field name;
`fkViolation` is the SQLite FOREIGN KEY constraint failure (foreign keys are
switched on by every connection); `notFound` is the NotFound outcome named
by the store contract of the specification (no `db.py` operation produces it). -/
inductive DbError where
  | invalidField (field : String)
  | fkViolation
  | notFound
deriving DecidableEq, Repr

/-- Model of `db.list_promotions`: SELECT of all promotions ORDER BY created_at DESC.
Modelled by sorting the table rows by `created_at` descending. -/
def list_promotions (s : Store) : List Promotion :=
  List.insertionSort (fun a b => b.created_at ≤ a.created_at) s.promotions

/-- Model of `db.get_promotion`: SELECT ... FROM promotions WHERE id=?, fetchone. -/
def get_promotion (s : Store) (promotion_id : Nat) : Option Promotion :=
  s.promotions.find? (fun p => p.id == promotion_id)

/-- Model of `db.add_promotion`: INSERT INTO promotions (...) VALUES (...), commit,
return `cursor.lastrowid`. The fresh AUTOINCREMENT id is `next_promo_id`. -/
def add_promotion (s : Store) (title description link : String)
    (preview_image_file_id image_file_id : Option String) (now : Nat) :
    Store × Nat :=
  let p : Promotion :=
    { id := s.next_promo_id, title := title, description := description,
      link := link, preview_image_file_id := preview_image_file_id,
      image_file_id := image_file_id, created_at := now }
  ({ s with promotions := s.promotions ++ [p],
            next_promo_id := s.next_promo_id + 1 },
   s.next_promo_id)

/-- The allow-list of `db.update_promotion_field`:
`allowed = {"title", "description", "link", "preview_image_file_id", "image_file_id"}`. -/
def allowedFields : List String :=
  ["title", "description", "link", "preview_image_file_id", "image_file_id"]

/-- Write one column of a promotion row, as the UPDATE statement of
`update_promotion_field` does for each allow-listed field name. -/
def setField (p : Promotion) (field value : String) : Promotion :=
  if field == "title" then { p with title := value }
  else if field == "description" then { p with description := value }
  else if field == "link" then { p with link := value }
  else if field == "preview_image_file_id" then { p with preview_image_file_id := some value }
  else if field == "image_file_id" then { p with image_file_id := some value }
  else p

/-- Model of `db.update_promotion_field`: raises ValueError when `field` is outside
the allow-list, before any connection or write is made; otherwise runs
`UPDATE promotions SET {field}=? WHERE id=?` (zero rows affected when no
row matches) and commits. The Python function returns None either way. -/
def update_promotion_field (s : Store) (promotion_id : Nat)
    (field value : String) : Except DbError Store :=
  if field ∈ allowedFields then
    .ok { s with promotions :=
            s.promotions.map (fun p => if p.id == promotion_id then setField p field value else p) }
  else
    .error (.invalidField field)

/-- Model of `db.delete_promotion`: DELETE FROM promotions WHERE id=?, commit. With
foreign keys on, ON DELETE CASCADE removes the click rows referencing the
deleted promotion. The statement succeeds whether or not a row matched. -/
def delete_promotion (s : Store) (promotion_id : Nat) : Except DbError Store :=
  .ok { s with
        promotions := s.promotions.filter (fun p => p.id != promotion_id),
        clicks := s.clicks.filter (fun c => c.promotion_id != promotion_id) }

/-- Model of `db.log_promotion_click`: INSERT INTO promotion_clicks
(promotion_id, action, user_id, clicked_at), commit. The connection has
executed `PRAGMA foreign_keys = ON;`, and `promotion_id` REFERENCES
promotions(id), so SQLite rejects the insert when no promotion row with
that id exists. -/
def log_promotion_click (s : Store) (promotion_id : Nat) (action : String)
    (user_id : Option Int) (now : Nat) : Except DbError Store :=
  if s.promotions.any (fun p => p.id == promotion_id) then
    .ok { s with
          clicks := s.clicks ++
            [{ id := s.next_click_id, promotion_id := promotion_id,
               user_id := user_id, action := action, clicked_at := now }],
          next_click_id := s.next_click_id + 1 }
  else
    .error .fkViolation

/-! ### Conversation state machine (`main.py`, aiogram FSM) -/

/-- Python `str.strip()`: drop whitespace from both ends. Implemented on
the character list so it evaluates by kernel reduction. -/
def pyStrip (s : String) : String :=
  String.mk (((s.data.dropWhile Char.isWhitespace).reverse.dropWhile
    Char.isWhitespace).reverse)

/-- The aiogram FSM states: `AddPromo` (preview_image, title, description,
link, confirm), `EditPromo` (promo_id, field, new_value), `DeletePromo`
(promo_id); `idle` is the cleared state (aiogram state None). -/
inductive FlowState where
  | idle
  | addPreviewImage
  | addTitle
  | addDescription
  | addLink
  | addConfirm
  | editPromoId
  | editField
  | editNewValue
  | deletePromoId
deriving DecidableEq, Repr

/-- The keys an add/edit flow stores through `state.update_data`. An outer
`none` means the key is absent from the FSM data dict; for the preview
image the inner option records that `/skip` stores the key with value
None while the photo handler stores a file id. -/
structure FSMData where
  preview_image_file_id : Option (Option String) := none
  title : Option String := none
  description : Option String := none
  link : Option String := none
  promo_id : Option Nat := none
  field : Option String := none
deriving DecidableEq, Repr

/-- The FSM data dict of a fresh or cleared context: no keys. -/
def emptyData : FSMData := {}

/-- The conversation state of one actor: current FSM state plus data dict. -/
structure ConvState where
  state : FlowState
  data : FSMData
deriving DecidableEq, Repr

/-- Model of `state.clear()`: resets the state to None and empties the data dict. -/
def clearedConv : ConvState := { state := .idle, data := emptyData }

/-- Model of `admin_add_promo` (callback "admin:add_promo"): sets state
AddPromo.preview_image and prompts for the preview photo. The data dict is
not touched. -/
def admin_add_promo (c : ConvState) : ConvState × List String :=
  ({ c with state := .addPreviewImage },
   ["Send preview image for the card (photo). You can skip with /skip."])

/-- Model of `addpromo_preview_image` (photo while in AddPromo.preview_image):
stores the photo file id under preview_image_file_id, advances to
AddPromo.title. -/
def addpromo_preview_image (file_id : String) (c : ConvState) :
    ConvState × List String :=
  ({ state := .addTitle,
     data := { c.data with preview_image_file_id := some (some file_id) } },
   ["Send promotion title:"])

/-- Model of `addpromo_skip_preview_image` ("/skip" while in AddPromo.preview_image):
stores preview_image_file_id=None, advances to AddPromo.title. -/
def addpromo_skip_preview_image (c : ConvState) : ConvState × List String :=
  ({ state := .addTitle,
     data := { c.data with preview_image_file_id := some none } },
   ["Send promotion title:"])

/-- Model of `addpromo_title` (any message in AddPromo.title): stores
`message.text.strip()` as the title and advances to AddPromo.description—
with no check that the stripped text is non-empty. -/
def addpromo_title (text : String) (c : ConvState) : ConvState × List String :=
  ({ state := .addDescription,
     data := { c.data with title := some (pyStrip text) } },
   ["Send promotion description:"])

/-- Model of `addpromo_description`: stores the stripped text, advances to
AddPromo.link. -/
def addpromo_description (text : String) (c : ConvState) :
    ConvState × List String :=
  ({ state := .addLink,
     data := { c.data with description := some (pyStrip text) } },
   ["Send promotion link (URL):"])

/-- Model of `addpromo_link`: stores the stripped text, renders the preview from
data["title"], data["description"], data["link"] (KeyError when a key is
absent, modelled as `none`), advances to AddPromo.confirm. -/
def addpromo_link (text : String) (c : ConvState) :
    Option (ConvState × List String) :=
  let d := { c.data with link := some (pyStrip text) }
  match d.title, d.description, d.link with
  | some t, some de, some l =>
      some ({ state := .addConfirm, data := d },
            ["Preview:\n<b>" ++ t ++ "</b>\n\n" ++ de ++ "\n\n" ++ l])
  | _, _, _ => none

/-- Model of `addpromo_confirm` (callback "admin:add_promo:yes" in AddPromo.confirm):
reads data["title"], data["description"], data["link"] (KeyError when a key
is absent, modelled as `none`), calls `db.add_promotion` passing
`data.get("preview_image_file_id")` for BOTH preview_image_file_id and
image_file_id (the duplication commented "# Duplicate from preview"), then
clears the state. -/
def addpromo_confirm (c : ConvState) (s : Store) (now : Nat) :
    Option (ConvState × Store × List String) :=
  match c.data.title, c.data.description, c.data.link with
  | some t, some de, some l =>
      let pv : Option String := (c.data.preview_image_file_id).getD none
      let res := add_promotion s t de l pv pv now
      some (clearedConv, res.1,
            ["Promotion #" ++ toString res.2 ++ " published."])
  | _, _, _ => none

/-- Model of `addpromo_cancel` (callback "admin:add_promo:no" in AddPromo.confirm):
clears the state, no store mutation. -/
def addpromo_cancel (_c : ConvState) : ConvState × List String :=
  (clearedConv, ["Canceled."])

/-! ### Dispatch gate (`main.py`, `is_admin` / `admin_only`) -/

/-- The configured administrator identity (`settings.admin_id`). -/
structure BotEnv where
  admin_id : Int
deriving DecidableEq, Repr

/-- Model of `is_admin`: the acting user is the one configured administrator. -/
def is_admin (env : BotEnv) (user_id : Int) : Bool :=
  user_id == env.admin_id

/-- The whole mutable world an admin handler can touch: the store and the
per-actor conversation states (aiogram keeps one FSM context per user). -/
structure World where
  store : Store
  conv : Int → ConvState

/-- The `admin_only` decorator: resolves the acting identity from the
event; when it is not the administrator it answers the fixed rejection —
"Admins only" (alert) for a CallbackQuery event, "Admins only." for a
message — and returns WITHOUT calling the wrapped handler, so neither the
store nor any conversation state changes; otherwise it invokes the wrapped
handler. -/
def admin_only (env : BotEnv) (handler : Int → World → World × List String)
    (eventIsCallback : Bool) (user_id : Int) (w : World) :
    World × List String :=
  if is_admin env user_id then handler user_id w
  else (w, [if eventIsCallback then "Admins only" else "Admins only."])

/-! ### HTTP API handlers (`main.py`) -/

/-- The X-Telegram-User-Id header as `api_promotion_click` sees it: absent,
present but not parseable as an int (the `except` keeps the previous
value), or parsed to a value. -/
inductive HeaderVal where
  | absent
  | unparseable
  | val (v : Int)
deriving DecidableEq, Repr

/-- The action tag recorded by `api_promotion_click`:
`data.get("action", "redirect")` — the action field of the body, or "redirect"
when the body omits the key. -/
def clickAction (bodyAction : Option String) : String :=
  bodyAction.getD "redirect"

/-- The actor id recorded by `api_promotion_click`:
`user_id = data.get("user_id")`; then `if not user_id` (true for an absent
key and ALSO for the value 0, Python falsiness) and the header is present,
`int(header)` replaces it, the `except` on a parse failure keeping the
body value. -/
def clickUserId (bodyUserId : Option Int) (header : HeaderVal) : Option Int :=
  let falsy : Bool :=
    match bodyUserId with
    | none => true
    | some v => v == 0
  if falsy then
    match header with
    | .val v => some v
    | _ => bodyUserId
  else bodyUserId

/-- Model of `api_promotion_click` (POST /api/promotions/{id}/click): resolves the
action tag and actor id from the body and header, then calls
`db.log_promotion_click`. -/
def api_promotion_click (s : Store) (promo_id : Nat)
    (bodyAction : Option String) (bodyUserId : Option Int)
    (header : HeaderVal) (now : Nat) : Except DbError Store :=
  log_promotion_click s promo_id (clickAction bodyAction)
    (clickUserId bodyUserId header) now

/-! ### Statistics (`db.stats` and the `stats` message handler) -/

/-- A value of the dict returned by `db.stats`: a count or a table of
(title, count) rows. -/
inductive StatsVal where
  | count (n : Nat)
  | table (rows : List (String × Nat))
deriving DecidableEq, Repr

/-- The redirect-click report of `db.stats`: per promotion the count of its
clicks with action = "redirect" (LEFT JOIN, so promotions with no clicks
appear with count 0), ordered by count descending. -/
def redirectClickRows (s : Store) : List (String × Nat) :=
  List.insertionSort (fun a b => b.2 ≤ a.2)
    (s.promotions.map (fun p =>
      (p.title,
       (s.clicks.filter (fun c => c.promotion_id == p.id && c.action == "redirect")).length)))

/-- Model of `db.stats`: returns the dict with exactly the keys "new_users" (users
created at or after the UTC midnight boundary) and "redirect_clicks". -/
def db_stats (s : Store) (todayStart : Nat) : List (String × StatsVal) :=
  [("new_users", .count (s.users.filter (fun u => todayStart ≤ u.created_at)).length),
   ("redirect_clicks", .table (redirectClickRows s))]

/-- Python dict subscription `data[key]`: the value, or a KeyError. -/
def dictGet (key : String) (d : List (String × StatsVal)) :
    Except String StatsVal :=
  match d.lookup key with
  | some v => .ok v
  | none => .error ("KeyError: " ++ key)

/-- The admin `stats` message handler: builds its report from
data["new_users"] and data["redirect_clicks"], then evaluates
`data["view_clicks"]` — a key `db.stats` never returns. -/
def stats_handler (s : Store) (todayStart : Nat) :
    Except String (List String) := do
  let data := db_stats s todayStart
  let nu ← dictGet "new_users" data
  let firstLines := ["Statistics",
    "New users today: " ++ (match nu with | .count n => toString n | .table r => toString r.length)]
  let rc ← dictGet "redirect_clicks" data
  let rcRows : List (String × Nat) := match rc with | .table rows => rows | .count _ => []
  let rcLines := rcRows.map (fun row => "- " ++ row.1 ++ ": " ++ toString row.2)
  let vc ← dictGet "view_clicks" data
  let vcRows : List (String × Nat) := match vc with | .table rows => rows | .count _ => []
  let vcLines := vcRows.map (fun row => "- " ++ row.1 ++ ": " ++ toString row.2)
  pure (firstLines ++ ["Redirect clicks:"] ++ rcLines ++ ["Card Views (All time):"] ++ vcLines)

/-! ### Test fixtures and scenario runners -/

/-- The five column values of one `add_promotion` call. -/
structure PromoReq where
  title : String
  description : String
  link : String
  preview_image_file_id : Option String
  image_file_id : Option String
deriving DecidableEq, Repr

/-- A sequence of `add_promotion` calls. Successive calls observe strictly
increasing `_utcnow()` values (ISO-8601 with microseconds), modelled by the
clock ticking by one between inserts. -/
def runInserts (s : Store) (reqs : List PromoReq) (t : Nat) : Store :=
  match reqs with
  | [] => s
  | r :: rs =>
      runInserts
        (add_promotion s r.title r.description r.link
          r.preview_image_file_id r.image_file_id t).1
        rs (t + 1)

/-- The add-promotion dialogue of the scenario in the specification, run from a
cleared conversation: enter the flow, /skip the image, reply "Sale",
"10% off", "http://x", then press the confirm button. -/
def runAddPromo (s : Store) (now : Nat) : Option (ConvState × Store × List String) :=
  let c1 := (admin_add_promo clearedConv).1
  let c2 := (addpromo_skip_preview_image c1).1
  let c3 := (addpromo_title "Sale" c2).1
  let c4 := (addpromo_description "10% off" c3).1
  match addpromo_link "http://x" c4 with
  | some res => addpromo_confirm res.1 s now
  | none => none

/-- A store holding exactly one promotion, with id 1. -/
def storeWithPromo1 : Store :=
  { emptyStore with
    promotions := [{ id := 1, title := "t", description := "d", link := "l",
                     preview_image_file_id := none, image_file_id := none,
                     created_at := 0 }] }

/-- A world with an empty store and every conversation cleared. -/
def world0 : World :=
  { store := emptyStore, conv := fun _ => clearedConv }

/-- A conversation sitting at the confirm step of the add flow, holding the
collected scenario data (image skipped). -/
def confirmConv : ConvState :=
  { state := .addConfirm,
    data := { preview_image_file_id := some none, title := some "Sale",
              description := some "10% off", link := some "http://x" } }

instance : IsTotal Promotion (fun a b => b.created_at ≤ a.created_at) :=
  ⟨fun a b => Nat.le_total b.created_at a.created_at⟩

instance : IsTrans Promotion (fun a b => b.created_at ≤ a.created_at) :=
  ⟨fun _ _ _ hab hbc => Nat.le_trans hbc hab⟩

/-! ### Helper lemmas -/

/-- Inserting an element strictly older-keyed than every element of a
descending-ordered list lands at the end. -/
theorem orderedInsert_desc_append (x : Promotion) :
    ∀ m : List Promotion, (∀ y ∈ m, x.created_at < y.created_at) →
      List.orderedInsert (fun a b => b.created_at ≤ a.created_at) x m = m ++ [x]
  | [], _ => rfl
  | y :: m, h => by
      have hy : ¬ (y.created_at ≤ x.created_at) :=
        Nat.not_le.mpr (h y (List.mem_cons_self y m))
      simp only [List.orderedInsert, if_neg hy, List.cons_append]
      rw [orderedInsert_desc_append x m (fun z hz => h z (List.mem_cons_of_mem y hz))]

/-- Sorting a strictly-increasing-keyed list by key descending reverses it. -/
theorem insertionSort_desc_reverse :
    ∀ l : List Promotion,
      l.Pairwise (fun a b => a.created_at < b.created_at) →
      List.insertionSort (fun a b => b.created_at ≤ a.created_at) l = l.reverse
  | [], _ => rfl
  | x :: l, h => by
      rcases List.pairwise_cons.mp h with ⟨h1, h2⟩
      show List.orderedInsert (fun a b => b.created_at ≤ a.created_at) x
          (List.insertionSort (fun a b => b.created_at ≤ a.created_at) l) = _
      rw [insertionSort_desc_reverse l h2,
        orderedInsert_desc_append x l.reverse
          (fun y hy => h1 y (List.mem_reverse.mp hy)),
        List.reverse_cons]

/-- Model of `runInserts` keeps the promotion rows strictly increasing in
`created_at` and bounded by the final clock value. -/
theorem runInserts_pairwise :
    ∀ (reqs : List PromoReq) (s : Store) (t : Nat),
      s.promotions.Pairwise (fun a b => a.created_at < b.created_at) →
      (∀ p ∈ s.promotions, p.created_at < t) →
      (runInserts s reqs t).promotions.Pairwise
          (fun a b => a.created_at < b.created_at) ∧
        ∀ p ∈ (runInserts s reqs t).promotions, p.created_at < t + reqs.length
  | [], s, t, h1, h2 => by
      refine ⟨h1, fun p hp => ?_⟩
      simpa using h2 p hp
  | r :: rs, s, t, h1, h2 => by
      have hstep :
          ((add_promotion s r.title r.description r.link
              r.preview_image_file_id r.image_file_id t).1).promotions.Pairwise
            (fun a b => a.created_at < b.created_at) := by
        simp only [add_promotion]
        rw [List.pairwise_append]
        exact ⟨h1, List.pairwise_singleton _ _,
          fun a ha b hb => by
            simp only [List.mem_singleton] at hb
            subst hb
            exact h2 a ha⟩
      have hbound :
          ∀ p ∈ ((add_promotion s r.title r.description r.link
              r.preview_image_file_id r.image_file_id t).1).promotions,
            p.created_at < t + 1 := by
        simp only [add_promotion]
        intro p hp
        rcases List.mem_append.mp hp with hp | hp
        · exact Nat.lt_succ_of_lt (h2 p hp)
        · simp only [List.mem_singleton] at hp
          subst hp
          exact Nat.lt_succ_self t
      have ih := runInserts_pairwise rs _ (t + 1) hstep hbound
      refine ⟨ih.1, fun p hp => ?_⟩
      have := ih.2 p hp
      simp only [List.length_cons]
      omega

/-- Mapping a guarded update over rows none of which match the id is the
identity. -/
theorem map_setField_of_no_match (pid : Nat) (field value : String) :
    ∀ l : List Promotion, (∀ p ∈ l, ¬ (p.id == pid) = true) →
      l.map (fun p => if p.id == pid then setField p field value else p) = l
  | [], _ => rfl
  | p :: l, h => by
      have hp : ¬ (p.id == pid) = true := h p (List.mem_cons_self p l)
      simp only [List.map_cons, if_neg hp]
      rw [map_setField_of_no_match pid field value l
        (fun q hq => h q (List.mem_cons_of_mem p hq))]

/-! ### Claim theorems -/

/-- C1 (counterexample). `logClick(999999, "redirect", no actor)` against a
store with no promotion 999999 does NOT succeed: the connection enforces
the foreign key (`PRAGMA foreign_keys = ON;`) and the insert of a dangling
promotion_id is rejected, so no click row is added. -/
theorem log_click_dangling_id_rejected :
    log_promotion_click emptyStore 999999 "redirect" none 0 =
      .error .fkViolation := rfl

/-- C1 (amended). `log_promotion_click` succeeds and appends exactly one
click row referencing the given id whenever a promotion with that id
exists; when none exists the enforced foreign key rejects the insert with
an error and the store is unchanged. -/
theorem log_click_fk_enforced (s : Store) (pid : Nat) (action : String)
    (uid : Option Int) (now : Nat) :
    (s.promotions.any (fun p => p.id == pid) = true →
      log_promotion_click s pid action uid now =
        .ok { s with
              clicks := s.clicks ++
                [{ id := s.next_click_id, promotion_id := pid,
                   user_id := uid, action := action, clicked_at := now }],
              next_click_id := s.next_click_id + 1 }) ∧
    (s.promotions.any (fun p => p.id == pid) = false →
      log_promotion_click s pid action uid now = .error .fkViolation) := by
  constructor <;> intro h <;> simp [log_promotion_click, h]

/-- C1 (witness): on a store holding promotion 1, logging a redirect click
for id 1 appends exactly that one click row. -/
theorem log_click_fk_enforced_witness :
    storeWithPromo1.promotions.any (fun p => p.id == 1) = true ∧
    log_promotion_click storeWithPromo1 1 "redirect" none 5 =
      .ok { storeWithPromo1 with
            clicks := [{ id := 1, promotion_id := 1, user_id := none,
                         action := "redirect", clicked_at := 5 }],
            next_click_id := 2 } := by
  refine ⟨by decide, ?_⟩
  have h := (log_click_fk_enforced storeWithPromo1 1 "redirect" none 5).1 (by decide)
  simpa using h

/-- C2. For every field name outside the allow-list, every promotion id and
every value, `update_promotion_field` fails with the InvalidField error
before any write statement is issued, leaving the store untouched. -/
theorem update_field_rejects_unknown_field (s : Store) (pid : Nat)
    (field value : String) (h : field ∉ allowedFields) :
    update_promotion_field s pid field value = .error (.invalidField field) := by
  simp [update_promotion_field, h]

/-- C2 (witness): "created_at" is outside the allow-list and is rejected. -/
theorem update_field_rejects_unknown_field_witness :
    "created_at" ∉ allowedFields ∧
    update_promotion_field storeWithPromo1 1 "created_at" "1999" =
      .error (.invalidField "created_at") :=
  ⟨by decide,
   update_field_rejects_unknown_field storeWithPromo1 1 "created_at" "1999" (by decide)⟩

/-- C3 (counterexample). On a store with no promotion 1, both
`update_promotion_field` (allow-listed field) and `delete_promotion`
return ok with the store unchanged — neither reports NotFound: the
UPDATE/DELETE statements simply affect zero rows. -/
theorem update_delete_missing_id_no_notfound :
    get_promotion emptyStore 1 = none ∧
    update_promotion_field emptyStore 1 "title" "x" = .ok emptyStore ∧
    update_promotion_field emptyStore 1 "title" "x" ≠ .error DbError.notFound ∧
    delete_promotion emptyStore 1 = .ok emptyStore ∧
    delete_promotion emptyStore 1 ≠ .error DbError.notFound := by
  refine ⟨rfl, rfl, fun h => ?_, rfl, fun h => ?_⟩
  · rw [show update_promotion_field emptyStore 1 "title" "x" = .ok emptyStore from rfl] at h
    exact Except.noConfusion h
  · rw [show delete_promotion emptyStore 1 = .ok emptyStore from rfl] at h
    exact Except.noConfusion h

/-- C3 (amended). With an allow-listed field, `update_promotion_field`
returns ok whether or not the promotion id exists — when it does not, the
promotions are unchanged (zero rows affected); `delete_promotion` likewise
always returns ok. Neither operation ever reports NotFound. -/
theorem update_delete_always_ok (s : Store) (pid : Nat)
    (field value : String) (h : field ∈ allowedFields) :
    (∃ s', update_promotion_field s pid field value = .ok s' ∧
      (get_promotion s pid = none → s'.promotions = s.promotions)) ∧
    (∃ t, delete_promotion s pid = .ok t) := by
  refine ⟨⟨{ s with promotions :=
      s.promotions.map (fun p => if p.id == pid then setField p field value else p) },
    ?_, fun hnone => ?_⟩, ⟨_, rfl⟩⟩
  · simp [update_promotion_field, h]
  · have hmem : ∀ p ∈ s.promotions, ¬ (p.id == pid) = true :=
      List.find?_eq_none.mp hnone
    exact map_setField_of_no_match pid field value s.promotions hmem

/-- C3 (witness): updating the title of the missing promotion 2 on a store
holding only promotion 1 returns ok with promotions unchanged, and
deleting promotion 2 returns ok. -/
theorem update_delete_always_ok_witness :
    "title" ∈ allowedFields ∧
    ((∃ s', update_promotion_field storeWithPromo1 2 "title" "x" = .ok s' ∧
        (get_promotion storeWithPromo1 2 = none →
          s'.promotions = storeWithPromo1.promotions)) ∧
      (∃ t, delete_promotion storeWithPromo1 2 = .ok t)) :=
  ⟨by decide, update_delete_always_ok storeWithPromo1 2 "title" "x" (by decide)⟩

/-- C4. A non-administrator invoking any handler wrapped by `admin_only`
(admin panel, statistics, every add/edit/delete flow step) leaves the
store and the conversation state of every actor unchanged and receives exactly
the fixed admins-only rejection; the wrapped handler is never invoked. -/
theorem admin_gate_blocks_non_admin (env : BotEnv)
    (handler : Int → World → World × List String)
    (eventIsCallback : Bool) (user_id : Int) (w : World)
    (h : is_admin env user_id = false) :
    admin_only env handler eventIsCallback user_id w =
      (w, [if eventIsCallback then "Admins only" else "Admins only."]) := by
  simp [admin_only, h]

/-- C4 (witness): actor 2 pressing an admin button when the configured
administrator is 1 gets the fixed rejection, and the world — including a
handler that would have mutated it — is untouched. -/
theorem admin_gate_blocks_non_admin_witness :
    is_admin { admin_id := 1 } 2 = false ∧
    admin_only { admin_id := 1 }
        (fun _ w => ({ w with store := storeWithPromo1 }, ["mutated"]))
        true 2 world0 =
      (world0, ["Admins only"]) := by
  refine ⟨by decide, ?_⟩
  have h := admin_gate_blocks_non_admin { admin_id := 1 }
    (fun _ w => ({ w with store := storeWithPromo1 }, ["mutated"]))
    true 2 world0 (by decide)
  simpa using h

/-- C5 (counterexample). A text reply of spaces only, which strips to the
empty string, is NOT re-prompted at the await-title step: the handler
records title = "" and advances to the description step. -/
theorem addpromo_title_blank_advances :
    (pyStrip "   " = "") ∧
    (addpromo_title "   " { state := .addTitle, data := emptyData }).1 =
      { state := .addDescription, data := { emptyData with title := some "" } } := by
  decide

/-- C5 (amended). The await-title step unconditionally records the stripped
text — even when it strips to empty — and advances to await-description;
no other collected field changes. -/
theorem addpromo_title_unconditional_advance (text : String) (c : ConvState) :
    (addpromo_title text c).1.state = FlowState.addDescription ∧
    (addpromo_title text c).1.data.title = some (pyStrip text) ∧
    (addpromo_title text c).1.data.preview_image_file_id = c.data.preview_image_file_id ∧
    (addpromo_title text c).1.data.description = c.data.description ∧
    (addpromo_title text c).1.data.link = c.data.link ∧
    (addpromo_title text c).2 = ["Send promotion description:"] :=
  ⟨rfl, rfl, rfl, rfl, rfl, rfl⟩

/-- C6. `delete_promotion` removes the promotion row and exactly the click
rows referencing it (ON DELETE CASCADE with foreign keys on) — click rows
of other promotions survive unchanged, being precisely the rows the
filter keeps — and a subsequent `get_promotion` of that id finds nothing. -/
theorem delete_promotion_cascades (s : Store) (pid : Nat) :
    ∃ s', delete_promotion s pid = .ok s' ∧
      s'.promotions = s.promotions.filter (fun p => p.id != pid) ∧
      s'.clicks = s.clicks.filter (fun c => c.promotion_id != pid) ∧
      get_promotion s' pid = none := by
  refine ⟨_, rfl, rfl, rfl, ?_⟩
  apply List.find?_eq_none.mpr
  intro p hp
  have h2 := (List.mem_filter.mp hp).2
  simp only [bne_iff_ne, ne_eq] at h2
  simpa using h2

/-- C7. Pressing confirm at the confirm step makes exactly one
`add_promotion` call whose image_file_id duplicates the collected
preview_image_file_id (both `data.get("preview_image_file_id")`), then
clears the conversation; and the scenario (skip image, title "Sale",
description "10% off", link "http://x", confirm) yields exactly one new
promotion with both image references absent and title "Sale". -/
theorem addpromo_confirm_commits (s : Store) (c : ConvState) (now : Nat)
    (t de l : String) (ht : c.data.title = some t)
    (hd : c.data.description = some de) (hl : c.data.link = some l) :
    addpromo_confirm c s now =
      some (clearedConv,
        { s with
          promotions := (s.promotions ++
            [{ id := s.next_promo_id, title := t, description := de, link := l,
               preview_image_file_id := (c.data.preview_image_file_id).getD none,
               image_file_id := (c.data.preview_image_file_id).getD none,
               created_at := now }]),
          next_promo_id := s.next_promo_id + 1 },
        ["Promotion #" ++ toString s.next_promo_id ++ " published."]) ∧
    runAddPromo emptyStore 7 =
      some (clearedConv,
        { emptyStore with
          promotions := [{ id := 1, title := "Sale", description := "10% off",
                           link := "http://x", preview_image_file_id := none,
                           image_file_id := none, created_at := 7 }],
          next_promo_id := 2 },
        ["Promotion #1 published."]) := by
  constructor
  · simp [addpromo_confirm, ht, hd, hl, add_promotion]
  · rfl

/-- C7 (witness): committing the collected scenario data from the confirm
step on an empty store produces exactly the expected single promotion. -/
theorem addpromo_confirm_commits_witness :
    confirmConv.data.title = some "Sale" ∧
    addpromo_confirm confirmConv emptyStore 7 =
      some (clearedConv,
        { emptyStore with
          promotions := [{ id := 1, title := "Sale", description := "10% off",
                           link := "http://x", preview_image_file_id := none,
                           image_file_id := none, created_at := 7 }],
          next_promo_id := 2 },
        ["Promotion #1 published."]) := by
  refine ⟨rfl, ?_⟩
  exact (addpromo_confirm_commits emptyStore confirmConv 7
    "Sale" "10% off" "http://x" rfl rfl rfl).1

/-- C8. `list_promotions` always returns the rows ordered by created_at
descending, and inserting any sequence of promotions into an empty store
(each insert observing a strictly later clock) and listing returns them in
exact reverse insertion order. -/
theorem list_promotions_newest_first :
    (∀ s : Store,
      List.Sorted (fun a b => b.created_at ≤ a.created_at) (list_promotions s)) ∧
    ∀ (reqs : List PromoReq) (t : Nat),
      list_promotions (runInserts emptyStore reqs t) =
        (runInserts emptyStore reqs t).promotions.reverse := by
  constructor
  · intro s
    exact List.sorted_insertionSort _ s.promotions
  · intro reqs t
    have h := runInserts_pairwise reqs emptyStore t List.Pairwise.nil
      (fun p hp => by simp [emptyStore] at hp)
    exact insertionSort_desc_reverse _ h.1

/-- C9 (counterexample). The body DOES supply a user id, namely 0, yet the
recorded actor id is the header value 7: the Python `if not user_id` treats
the body value 0 as absent. -/
theorem api_click_body_zero_loses :
    clickUserId (some 0) (HeaderVal.val 7) = some 7 ∧
    api_promotion_click storeWithPromo1 1 none (some 0) (HeaderVal.val 7) 3 =
      .ok { storeWithPromo1 with
            clicks := [{ id := 1, promotion_id := 1, user_id := some 7,
                         action := "redirect", clicked_at := 3 }],
            next_click_id := 2 } :=
  ⟨rfl, rfl⟩

/-- C9 (amended). The recorded action tag is the action field of the body or
"redirect" when omitted; the recorded actor id is the user_id of the body
whenever that value is non-null and non-zero, the parsed header value when
the body value is absent or 0 (Python falsiness) and the header parses,
and the body value otherwise; the endpoint records exactly these through
`log_promotion_click`. -/
theorem api_click_defaults_and_precedence (bodyAction : Option String)
    (bodyUserId : Option Int) (h : HeaderVal) :
    clickAction bodyAction = bodyAction.getD "redirect" ∧
    (∀ v : Int, bodyUserId = some v → v ≠ 0 → clickUserId bodyUserId h = some v) ∧
    ((bodyUserId = none ∨ bodyUserId = some 0) →
      ∀ v : Int, h = HeaderVal.val v → clickUserId bodyUserId h = some v) ∧
    ((bodyUserId = none ∨ bodyUserId = some 0) →
      (h = HeaderVal.absent ∨ h = HeaderVal.unparseable) →
      clickUserId bodyUserId h = bodyUserId) ∧
    (∀ (s : Store) (pid : Nat) (now : Nat),
      api_promotion_click s pid bodyAction bodyUserId h now =
        log_promotion_click s pid (clickAction bodyAction)
          (clickUserId bodyUserId h) now) := by
  refine ⟨rfl, ?_, ?_, ?_, fun s pid now => rfl⟩
  · intro v hv hvne
    subst hv
    have hb : (v == (0 : Int)) = false := beq_eq_false_iff_ne.mpr hvne
    simp [clickUserId, hb]
  · rintro (hb | hb) v hv <;> subst hb <;> subst hv <;> rfl
  · rintro (hb | hb) (hh | hh) <;> subst hb <;> subst hh <;> rfl

/-- C9 (witness): a non-zero body user id 5 beats a parseable header 7, and
an omitted action is recorded as "redirect". -/
theorem api_click_defaults_and_precedence_witness :
    clickAction none = "redirect" ∧
    clickUserId (some 5) (HeaderVal.val 7) = some 5 :=
  ⟨(api_click_defaults_and_precedence none (some 5) (HeaderVal.val 7)).1,
   (api_click_defaults_and_precedence none (some 5) (HeaderVal.val 7)).2.1
     5 rfl (by decide)⟩

/-- C10. The administrator statistics handler fails on every store state
and every day boundary: it evaluates `data["view_clicks"]`, but `db.stats`
returns a dict with only the keys "new_users" and "redirect_clicks", so
the lookup raises KeyError before the report is produced. -/
theorem stats_handler_always_key_errors (s : Store) (todayStart : Nat) :
    stats_handler s todayStart = .error "KeyError: view_clicks" := rfl

end PromoApp
